import Mathlib

/-!
Verification of the PkgGuard trust-scoring engine and command interceptor.

JavaScript numbers are modelled as rationals (`ℚ`); `Math.log10`, GitHub
stats fetching, `Date` formatting and the link-based repository extraction
are external effects and are modelled as oracle fields of an `Env` record,
so every theorem quantifies over their behaviour.  `Date.now()` is the
`now` field.  `Math.round` is `jsRound` (floor of `x + 1/2`, which is the
JavaScript round-half-up rule).  Strings are Lean `String`s; `\s` is
modelled as ASCII whitespace.
-/

namespace PkgGuard

/-- JavaScript `Math.round`: round half toward positive infinity. -/
def jsRound (q : ℚ) : ℤ := ⌊q + 1/2⌋

/-- Trust level of a package (`'high' | 'medium' | 'low' | 'ignored'`). -/
inductive Level where
  | high
  | medium
  | low
  | ignored
deriving DecidableEq, Repr

/-- Risk-factor colour (`'red' | 'orange'`). -/
inductive RiskColor where
  | red
  | orange
deriving DecidableEq, Repr

/-- `RegistryInfo` from `src/types.ts` (the adapter's metadata snapshot). -/
structure RegistryInfo where
  exists_ : Bool
  downloads : ℚ
  latestRelease : ℚ
  maintainerCount : ℕ
  highVulnCount : ℚ
  githubRepo : Option String
  registryUrl : String
deriving DecidableEq, Repr

/-- The `evidence` object built inside `calculateScore`. -/
structure Evidence where
  exists_ : Bool
  downloads : ℚ
  releaseAge : ℚ
  multipleMaintainers : Bool
  vulnerabilities : ℚ
  maintainerCount : ℕ
  registryUrl : String
  githubRepo : Option String
deriving DecidableEq, Repr

/-- `TrustScore` as returned by the scoring engines. -/
structure TrustScore where
  packageName : String
  score : Option ℚ
  level : Level
  evidence : Evidence
  scoreReasons : List String
  topDownloads : ℚ
  releaseDate : String
  riskFactors : List (String × RiskColor)
  githubRepo : Option String
deriving DecidableEq, Repr

/-- Result of `fetchGitHubStats`. -/
structure GitHubStats where
  stars : ℚ
  forks : ℚ
  lastCommit : ℚ
  rateLimited : Bool
deriving DecidableEq, Repr

/-- Environment oracles: clock, transcendental `log10`, GitHub fetch,
date formatting, the link-based repo extraction, and the cache TTL taken
from `PKG_GUARD_CACHE_TTL` (default 172800 seconds). -/
structure Env where
  now : ℚ
  log10 : ℚ → ℚ
  fetchStats : String → Option GitHubStats
  extractRepo : RegistryInfo → String → Option String
  formatDate : ℚ → String
  ttl : ℚ

/-- Module-level and instance state of the Python `ScoringEngine`
(`topPyPiPackages`, `topPyPiDownloads`, `ignoredPackages`,
`recentlyIgnored`, and the score cache).  Maps are association lists
looked up front-first; inserting at the head models `Map.set`. -/
structure PyState where
  topPyPiPackages : List String
  topPyPiDownloads : List (String × ℚ)
  ignoredPackages : List (String × String)
  recentlyIgnored : List String
  cache : List (String × TrustScore × ℚ)
deriving Repr

/-- ASCII lower-casing, modelling `String.prototype.toLowerCase` on the
package names that occur here. -/
def jsToLowerCase (s : String) : String :=
  String.mk (s.data.map Char.toLower)

/-- `calculateReleaseAge`: 0 when the timestamp is unknown, otherwise
`max 0 (100 - ageInDays)`. -/
def calculateReleaseAge (now latestRelease : ℚ) : ℚ :=
  if latestRelease = 0 then 0
  else max 0 (100 - (now - latestRelease) / (1000 * 60 * 60 * 24))

/-- `computeScore`: weighted evidence sum, clamped to `[0,100]`. -/
def pyComputeScore (log10 : ℚ → ℚ) (e : Evidence) : ℚ :=
  let s : ℚ := (if e.exists_ then 40 else 0)
    + (if 0 < e.downloads then min 20 (log10 e.downloads * 5) else 0)
    + e.releaseAge / 100 * 15
    + (if e.multipleMaintainers then 5 else 0)
    + e.vulnerabilities * (-10)
  max 0 (min 100 s)

/-- `ScoringEngine.determineLevel`: 80/50 thresholds. -/
def pyDetermineLevel (score : ℚ) : Level :=
  if 80 ≤ score then .high
  else if 50 ≤ score then .medium
  else .low

/-- `JavaScriptScoringEngine.determineLevel`: 75/45 thresholds. -/
def jsDetermineLevel (score : ℚ) : Level :=
  if 75 ≤ score then .high
  else if 45 ≤ score then .medium
  else .low

/-- `a.charAt(i)` for the in-range accesses made by the Levenshtein matrix. -/
def jsCharAt (l : List Char) (i : ℕ) : Char := l.getD i ' '

/-- Row `i+1` of the Levenshtein matrix of `ScoringEngine.levenshtein`,
given row `i` as `prev`: `matrix[i+1][0] = i+1` and
`matrix[i+1][j+1] = min(up+1, left+1, diag + cost)` exactly as in the
source loop. -/
def levCell (a b : List Char) (prev : ℕ → ℕ) (i : ℕ) : ℕ → ℕ
  | 0 => i + 1
  | j + 1 =>
    min (prev (j + 1) + 1)
      (min (levCell a b prev i j + 1)
        (prev j + (if jsCharAt a i = jsCharAt b j then 0 else 1)))

/-- The dynamic-programming matrix of `ScoringEngine.levenshtein`:
`levMatrix a b i j` is `matrix[i][j]`, the cost for the length-`i` prefix
of `a` against the length-`j` prefix of `b` (row 0 is `0..bLen`, each
later row is filled from the previous one). -/
def levMatrix (a b : List Char) : ℕ → ℕ → ℕ
  | 0 => fun j => j
  | i + 1 => levCell a b (levMatrix a b i) i

theorem levMatrix_zero (a b : List Char) (j : ℕ) : levMatrix a b 0 j = j := rfl

theorem levMatrix_succ_zero (a b : List Char) (i : ℕ) : levMatrix a b (i + 1) 0 = i + 1 := rfl

/-- The matrix satisfies the source's cell recurrence. -/
theorem levMatrix_succ_succ (a b : List Char) (i j : ℕ) :
    levMatrix a b (i + 1) (j + 1) =
      min (levMatrix a b i (j + 1) + 1)
        (min (levMatrix a b (i + 1) j + 1)
          (levMatrix a b i j + (if jsCharAt a i = jsCharAt b j then 0 else 1))) := rfl

/-- `ScoringEngine.levenshtein`.  An empty string is falsy in JavaScript,
so `!a || !b` returns the larger length up front. -/
def levenshtein (a b : String) : ℕ :=
  if a.data = [] ∨ b.data = [] then max a.data.length b.data.length
  else levMatrix a.data b.data a.data.length b.data.length

/-- Reference definition: the classic edit distance with unit-cost
insert, delete and substitute. -/
def editDistance : List Char → List Char → ℕ
  | [], ys => ys.length
  | xs, [] => xs.length
  | x :: xs, y :: ys =>
    min (editDistance xs (y :: ys) + 1)
      (min (editDistance (x :: xs) ys + 1)
        (editDistance xs ys + (if x = y then 0 else 1)))
termination_by xs ys => xs.length + ys.length

/-- `ScoringEngine.isTyposquat`: first top package (set iteration order)
at lower-cased Levenshtein distance exactly 1, skipping an exact match. -/
def isTyposquat (topPackages : List String) (name : String) : Option String :=
  let lower := jsToLowerCase name
  (topPackages.find? fun topRaw =>
    let top := jsToLowerCase topRaw
    lower ≠ top ∧ levenshtein lower top = 1).map jsToLowerCase

/-- `PYTHON_STDLIB` from `src/scoring/index.ts`. -/
def PYTHON_STDLIB : List String :=
  ["abc", "aifc", "argparse", "array", "ast", "asynchat", "asyncio", "asyncore", "atexit",
   "audioop", "base64", "bdb", "binascii", "binhex", "bisect", "builtins", "bz2", "cProfile",
   "calendar", "cgi", "cgitb", "chunk", "cmath", "cmd", "code", "codecs", "codeop",
   "collections", "colorsys", "compileall", "concurrent", "configparser", "contextlib",
   "contextvars", "copy", "copyreg", "crypt", "csv", "ctypes", "curses", "dataclasses",
   "datetime", "dbm", "decimal", "difflib", "dis", "distutils", "doctest", "email",
   "encodings", "ensurepip", "enum", "errno", "faulthandler", "fcntl", "filecmp", "fileinput",
   "fnmatch", "formatter", "fractions", "ftplib", "functools", "gc", "getopt", "getpass",
   "gettext", "glob", "graphlib", "grp", "gzip", "hashlib", "heapq", "hmac", "html", "http",
   "imaplib", "imghdr", "imp", "importlib", "inspect", "io", "ipaddress", "itertools", "json",
   "keyword", "lib2to3", "linecache", "locale", "logging", "lzma", "mailbox", "mailcap",
   "marshal", "math", "mimetypes", "mmap", "modulefinder", "msilib", "msvcrt",
   "multiprocessing", "netrc", "nntplib", "numbers", "operator", "optparse", "os",
   "ossaudiodev", "parser", "pathlib", "pdb", "pickle", "pickletools", "pipes", "pkgutil",
   "platform", "plistlib", "poplib", "posix", "pprint", "profile", "pstats", "pty", "pwd",
   "py_compile", "pyclbr", "pydoc", "queue", "quopri", "random", "re", "readline", "reprlib",
   "resource", "rlcompleter", "runpy", "sched", "secrets", "select", "selectors", "shelve",
   "shlex", "shutil", "signal", "site", "smtpd", "smtplib", "sndhdr", "socket",
   "socketserver", "spwd", "sqlite3", "ssl", "stat", "statistics", "string", "stringprep",
   "struct", "subprocess", "sunau", "symbol", "symtable", "sys", "sysconfig", "syslog",
   "tabnanny", "tarfile", "telnetlib", "tempfile", "termios", "test", "textwrap", "threading",
   "time", "timeit", "tkinter", "token", "tokenize", "trace", "traceback", "tracemalloc",
   "tty", "turtle", "turtledemo", "types", "typing", "unicodedata", "unittest", "urllib",
   "uu", "uuid", "venv", "warnings", "wave", "weakref", "webbrowser", "winreg", "winsound",
   "wsgiref", "xdrlib", "xml", "xmlrpc", "zipapp", "zipfile", "zipimport", "zlib"]

/-- `NODE_BUILTINS` from `src/scoring/javascript.ts`. -/
def NODE_BUILTINS : List String :=
  ["assert", "async_hooks", "buffer", "child_process", "cluster", "console", "constants",
   "crypto", "dgram", "dns", "domain", "events", "fs", "http", "http2", "https", "inspector",
   "module", "net", "os", "path", "perf_hooks", "process", "punycode", "querystring",
   "readline", "repl", "stream", "string_decoder", "timers", "tls", "trace_events", "tty",
   "url", "util", "v8", "vm", "worker_threads", "zlib"]

/-- Does list `l` start with `pre`? -/
def startsWithL (pre l : List Char) : Bool :=
  match pre, l with
  | [], _ => true
  | _ :: _, [] => false
  | p :: ps, c :: cs => p = c && startsWithL ps cs

/-- Does `sub` occur as a contiguous run of `l`? -/
def containsSub (sub l : List Char) : Bool :=
  match l with
  | [] => startsWithL sub []
  | c :: cs => startsWithL sub (c :: cs) || containsSub sub cs

/-- `s.includes(sub)` on the strings compared by the engines. -/
def strContains (s sub : String) : Bool := containsSub sub.data s.data

/-- `Array.from(new Set(xs))`: deduplicate keeping first occurrences. -/
def dedupFirstAux (seen : List String) : List String → List String
  | [] => []
  | x :: xs =>
    if seen.contains x then dedupFirstAux seen xs
    else x :: dedupFirstAux (x :: seen) xs

/-- `Array.from(new Set(xs))` on a string array. -/
def dedupFirst (l : List String) : List String := dedupFirstAux [] l

/-- `ScoringEngine.getCachedScore`: fresh iff `now - timestamp < ttl * 1000`. -/
def getCachedScore (cache : List (String × TrustScore × ℚ)) (language name : String)
    (ttl now : ℚ) : Option TrustScore :=
  match cache.lookup (language ++ ":" ++ name) with
  | none => none
  | some (score, timestamp) => if now - timestamp < ttl * 1000 then some score else none

/-- `ScoringEngine.setCachedScore`: `Map.set`, modelled as a front insert
so that front-first lookup sees the newest entry. -/
def setCachedScore (cache : List (String × TrustScore × ℚ)) (language name : String)
    (score : TrustScore) (now : ℚ) : List (String × TrustScore × ℚ) :=
  (language ++ ":" ++ name, score, now) :: cache

/-- The private `ScoringEngine.isIgnoredPackage` of the cached engine:
`const note = ignoredPackages.get(name); if (!note) ...` — an entry whose
note is the empty string is falsy and is reported as NOT ignored. -/
def isIgnoredPackagePriv (ignoredPackages : List (String × String)) (name : String) :
    Option String :=
  match ignoredPackages.lookup name with
  | none => none
  | some note => if note = "" then none else some note

/-- The exported `isIgnoredPackage` (membership test, used by the cached
JavaScript engine): any entry counts, empty note included. -/
def isIgnoredPackageShared (ignoredPackages : List (String × String)) (name : String) :
    Option String :=
  match ignoredPackages.lookup name with
  | none => none
  | some note => some note

/- Reason and risk-factor strings of the Python engine (the source file
stores them as UTF-8; the emoji are restored from the cleanly encoded
duplicate engine in the same repository). -/

def topPackageReason : String := "🏆 This is a top PyPI package."

def typosquatReason (t : String) : String :=
  "⚠️ Name is very similar to top package \"" ++ t ++ "\" (possible typosquatting)."

def rateLimitReason : String :=
  "⚠️ GitHub API rate limit reached. GitHub-related risks could not be calculated."

def starsVeryPopularReason : String := "⭐ Very popular on GitHub (>1000 stars)."

def starsPopularReason : String := "⭐ Popular on GitHub (>100 stars)."

def starsFewReason : String := "⭐ Very few GitHub stars (<10)."

def forksReason : String := "🍴 Frequently forked on GitHub (>100 forks)."

def recentCommitReason : String := "🕒 Recently updated on GitHub (<6 months ago)."

def notExistReason : String := "❌ Package does not exist on PyPI."

def noDownloadReason : String := "📦 No download data available."

def veryRecentReason : String := "⏰ Very recent release."

def lowDownloadReason : String := "📦 Low download count (<10,000/week)."

def singleMaintainerReason : String := "👤 Only a single maintainer."

def knownVulnReason : String := "⚠️ Known vulnerabilities."

def noDownloadRisk : String := "No download data available."

def veryRecentRisk : String := "Very recent release."

def singleMaintainerRisk : String := "Only a single maintainer."

def lowDownloadRisk : String := "Low download count (<10,000/week)."

def noUpdatesRisk (years : ℤ) : String :=
  "No updates on GitHub for over 2 years (last update: " ++ toString years
    ++ " year" ++ (if years = 1 then "" else "s") ++ " ago)."

def hallucinationRisk : String :=
  "This package does not exist on PyPI or has no releases. It may be a hallucination or typo. Manual research and verification is required."

def ignoredConfigReason (note : String) : String :=
  "⚪ This package is ignored by your configuration."
    ++ (if note = "" then "" else " Note: " ++ note)

def stdlibReason : String :=
  "📦 This is a Python standard library module and is always trusted."

/-- The Python engine's `filteredScoreReasons` predicate (a reason is kept
when it contains none of the four risk substrings). -/
def pyReasonKept (r : String) : Bool :=
  !(strContains r "No updates on GitHub for over 2 years")
    && !(strContains r "No download data available.")
    && !(strContains r "Very recent release.")
    && !(strContains r "Only a single maintainer.")

/-- The `ignored` early return of the Python engine. -/
def pyIgnoredScore (name note : String) (githubRepo : Option String) : TrustScore :=
  { packageName := name
    score := none
    level := .ignored
    evidence :=
      { exists_ := true, downloads := 0, releaseAge := 0, multipleMaintainers := true
        vulnerabilities := 0, maintainerCount := 0, registryUrl := "", githubRepo := none }
    scoreReasons := [ignoredConfigReason note]
    topDownloads := 0
    releaseDate := ""
    riskFactors := []
    githubRepo := githubRepo }

/-- The standard-library early return of the Python engine. -/
def pyStdlibScore (name : String) (githubRepo : Option String) : TrustScore :=
  { packageName := name
    score := some 100
    level := .high
    evidence :=
      { exists_ := true, downloads := 0, releaseAge := 0, multipleMaintainers := true
        vulnerabilities := 0, maintainerCount := 0, registryUrl := "", githubRepo := none }
    scoreReasons := [stdlibReason]
    topDownloads := 0
    releaseDate := ""
    riskFactors := []
    githubRepo := githubRepo }

/-- `score = isPerfect ? 100 : Math.max(0, Math.min(100, Math.round(baseScore)))`. -/
def pyFinalScore (baseScore : ℚ) (isPerfect : Bool) : ℚ :=
  if isPerfect then 100 else max 0 (min 100 ((jsRound baseScore : ℤ) : ℚ))

/-- The single GitHub pass of the cached Python engine (`if (githubStats)
... score = Math.max(0, Math.min(100, score))`): star, fork and
recent-commit adjustments, or only the rate-limit notice, then the clamp. -/
def pyGithubAdjust (env : Env) (githubStats : Option GitHubStats) (score : ℚ)
    (scoreReasons : List String) : ℚ × List String :=
  match githubStats with
  | none => (score, scoreReasons)
  | some stats =>
    if stats.rateLimited then
      (max 0 (min 100 score), scoreReasons ++ [rateLimitReason])
    else
      let s := score
      let rs := scoreReasons
      let (s, rs) :=
        if 1000 < stats.stars then (s + 10, rs ++ [starsVeryPopularReason])
        else if 100 < stats.stars then (s + 5, rs ++ [starsPopularReason])
        else if stats.stars < 10 then (s - 10, rs ++ [starsFewReason])
        else (s, rs)
      let (s, rs) := if 100 < stats.forks then (s + 5, rs ++ [forksReason]) else (s, rs)
      let (s, rs) :=
        if 0 < stats.lastCommit ∧
            (env.now - stats.lastCommit) / (1000 * 60 * 60 * 24 * 30) < 6 then
          (s + 5, rs ++ [recentCommitReason])
        else (s, rs)
      (max 0 (min 100 s), rs)

/-- The body of the cached Python `ScoringEngine.calculateScore` after the
ignore and cache early returns: standard-library short-circuit, evidence,
base score, top floor, typosquat penalty, one GitHub pass, reasons,
risk-factor classification, boosted recompute, hallucination override and
finally the cache write. -/
def pyScoreMain (env : Env) (st : PyState) (name : String) (info : RegistryInfo)
    (githubRepo : Option String) : TrustScore × PyState :=
  if PYTHON_STDLIB.contains name then (pyStdlibScore name githubRepo, st)
  else
    let evidence : Evidence :=
      { exists_ := info.exists_
        downloads := info.downloads
        releaseAge := calculateReleaseAge env.now info.latestRelease
        multipleMaintainers := 2 ≤ info.maintainerCount
        vulnerabilities := info.highVulnCount
        maintainerCount := info.maintainerCount
        registryUrl := ""
        githubRepo := none }
    let score := pyComputeScore env.log10 evidence
    let isTop := st.topPyPiPackages.contains (jsToLowerCase name)
    let topDownloads : ℚ :=
      if isTop then (st.topPyPiDownloads.lookup (jsToLowerCase name)).getD 0 else 0
    let releaseDate := if 0 < info.latestRelease then env.formatDate info.latestRelease else ""
    let score := if isTop then max score 85 else score
    let scoreReasons : List String := if isTop then [topPackageReason] else []
    let typosquat := isTyposquat st.topPyPiPackages name
    let squatHit : Option String :=
      match typosquat with
      | some t =>
        if isTop = false ∧ st.topPyPiPackages.contains (jsToLowerCase t) then some t else none
      | none => none
    let score := match squatHit with | some _ => max 0 (score - 60) | none => score
    let scoreReasons :=
      match squatHit with
      | some t => scoreReasons ++ [typosquatReason t]
      | none => scoreReasons
    let githubStats := githubRepo.bind env.fetchStats
    let gh := pyGithubAdjust env githubStats score scoreReasons
    let score := gh.1
    let scoreReasons := gh.2
    let scoreReasons := scoreReasons
      ++ (if evidence.exists_ = false then [notExistReason] else [])
      ++ (if evidence.downloads = 0 ∧ topDownloads = 0 then [noDownloadReason] else [])
      ++ (if evidence.releaseAge < 7 ∧ 0 < evidence.releaseAge then [veryRecentReason] else [])
      ++ (if 0 < evidence.downloads ∧ evidence.downloads < 10000 then [lowDownloadReason] else [])
      ++ (if evidence.multipleMaintainers = false then [singleMaintainerReason] else [])
      ++ (if 0 < evidence.vulnerabilities then [knownVulnReason] else [])
    let score :=
      if isTop ∧ score < 80 ∧ evidence.vulnerabilities = 0 ∧ evidence.exists_ = true then 80
      else score
    let highRiskFactors : List String :=
      (match githubStats with
       | some stats =>
         if 0 < stats.lastCommit then
           let years : ℤ := ⌊(env.now - stats.lastCommit) / (1000 * 60 * 60 * 24 * 365)⌋
           if 2 ≤ years then [noUpdatesRisk years] else []
         else []
       | none => [])
      ++ (if evidence.downloads = 0 ∧ topDownloads = 0 then [noDownloadRisk] else [])
    let mediumRiskFactors : List String :=
      (if evidence.releaseAge < 7 ∧ 0 < evidence.releaseAge then [veryRecentRisk] else [])
      ++ (if evidence.multipleMaintainers = false then [singleMaintainerRisk] else [])
      ++ (if 0 < evidence.downloads ∧ evidence.downloads < 10000 then [lowDownloadRisk] else [])
    let uniqueHigh := dedupFirst highRiskFactors
    let uniqueMedium := dedupFirst (mediumRiskFactors.filter fun f => !(uniqueHigh.contains f))
    let filteredScoreReasons := scoreReasons.filter pyReasonKept
    let boost : ℚ := (if isTop then 30 else 0)
      + (if 100000000 < topDownloads ∨ 100000000 < evidence.downloads then 20
         else if 10000000 < topDownloads ∨ 10000000 < evidence.downloads then 10
         else 0)
    let millionsOfDownloads : Bool :=
      decide (1000000 < topDownloads) || decide (1000000 < evidence.downloads)
    let activeRelease : Bool :=
      decide (0 < info.latestRelease)
        && decide ((env.now - info.latestRelease) / (1000 * 60 * 60 * 24) < 365)
    let activeGitHub : Bool :=
      match githubStats with
      | some stats =>
        decide (0 < stats.lastCommit)
          && decide ((env.now - stats.lastCommit) / (1000 * 60 * 60 * 24) < 365)
      | none => false
    let riskPenalty : ℚ := uniqueHigh.length * 20 + uniqueMedium.length * 5
    let baseScore := pyComputeScore env.log10 evidence + boost - riskPenalty
    let isPerfect : Bool := isTop && millionsOfDownloads && activeRelease && activeGitHub
      && evidence.multipleMaintainers && decide (uniqueHigh = []) && decide (uniqueMedium = [])
    let score := pyFinalScore baseScore isPerfect
    let level := pyDetermineLevel score
    let riskFactors := uniqueHigh.map (fun f => (f, RiskColor.red))
      ++ uniqueMedium.map (fun f => (f, RiskColor.orange))
    if evidence.exists_ = false ∨ info.latestRelease = 0 then
      ({ packageName := name
         score := some 0
         level := .low
         evidence := { evidence with registryUrl := info.registryUrl, githubRepo := info.githubRepo }
         scoreReasons := filteredScoreReasons
         topDownloads := topDownloads
         releaseDate := releaseDate
         riskFactors := [(hallucinationRisk, RiskColor.red)]
         githubRepo := githubRepo }, st)
    else
      let result : TrustScore :=
        { packageName := name
          score := some ((jsRound score : ℤ) : ℚ)
          level := level
          evidence := { evidence with registryUrl := info.registryUrl, githubRepo := info.githubRepo }
          scoreReasons := filteredScoreReasons
          topDownloads := topDownloads
          releaseDate := releaseDate
          riskFactors := riskFactors
          githubRepo := githubRepo }
      (result, { st with cache := setCachedScore st.cache "python" name result env.now })

/-- `let githubRepo = info.githubRepo; if (!githubRepo) githubRepo =
this.extractGitHubRepoFromLinks(info, name)` (the link scan is the
`extractRepo` oracle). -/
def pyDetectRepo (env : Env) (info : RegistryInfo) (name : String) : Option String :=
  match info.githubRepo with
  | some r => some r
  | none => env.extractRepo info name

/-- The cached Python `ScoringEngine.calculateScore`: repository detection,
ignore early return, cache check (skipped for a freshly unignored name,
which is also cleared from `recentlyIgnored`), then the main body. -/
def pyCalculateScore (env : Env) (st : PyState) (name : String) (info : RegistryInfo) :
    TrustScore × PyState :=
  let githubRepo : Option String := pyDetectRepo env info name
  match isIgnoredPackagePriv st.ignoredPackages name with
  | some note => (pyIgnoredScore name note githubRepo, st)
  | none =>
    let cached := getCachedScore st.cache "python" name env.ttl env.now
    let wasIgnored := st.recentlyIgnored.contains name
    match cached, wasIgnored with
    | some c, false => (c, st)
    | _, _ =>
      let st :=
        if wasIgnored then { st with recentlyIgnored := st.recentlyIgnored.erase name } else st
      pyScoreMain env st name info githubRepo

/-! The `JavaScriptScoringEngine` variant with 75/45 thresholds. -/

/-- Module-level state of the JavaScript engine. -/
structure JsState where
  topNpmPackages : List String
  topNpmDownloads : List (String × ℚ)
deriving Repr

/-- `JavaScriptScoringEngine.computeScore` (same weights, duplicated in the
source). -/
def jsComputeScore (log10 : ℚ → ℚ) (e : Evidence) : ℚ :=
  let s : ℚ := (if e.exists_ then 40 else 0)
    + (if 0 < e.downloads then min 20 (log10 e.downloads * 5) else 0)
    + e.releaseAge / 100 * 15
    + (if e.multipleMaintainers then 5 else 0)
    + e.vulnerabilities * (-10)
  max 0 (min 100 s)

def jsTopReason : String := "🏆 This is a top npm package."

def jsStars10kReason : String := "⭐ Very popular on GitHub (>10,000 stars)."

def jsStars1kReason : String := "⭐ Popular on GitHub (>1,000 stars)."

def jsNoUpdatesReason : String := "🕒 No updates on GitHub for over 2 years."

def jsNotExistReason : String := "❌ Package does not exist on npm."

def jsNoUpdatesRisk : String := "No updates on GitHub for over 2 years."

def jsHallucinationRisk : String :=
  "This package does not exist on npm or has no releases. It may be a hallucination or typo. Manual research and verification is required."

/-- The JavaScript engine's `filteredScoreReasons` predicate (its first
excluded substring carries the trailing period). -/
def jsReasonKept (r : String) : Bool :=
  !(strContains r "No updates on GitHub for over 2 years.")
    && !(strContains r "No download data available.")
    && !(strContains r "Very recent release.")
    && !(strContains r "Only a single maintainer.")

/-- The final score selection of the 75/45 JavaScript engine:
`100` for perfect packages, `Math.min(score, 95)` of the unrounded
intermediate score when any risk factor exists, and the rounded clamped
boosted base score otherwise. -/
def jsFinalScore (ghScore baseScore : ℚ) (isPerfect risky : Bool) : ℚ :=
  if isPerfect then 100
  else if risky then min ghScore 95
  else max 0 (min 100 ((jsRound baseScore : ℤ) : ℚ))

/-- The GitHub pass of the 75/45 JavaScript engine: stars at the 10k/1k
tiers, forks, recent-commit bonus or stale-commit penalty, then the
clamp. -/
def jsGithubAdjust (env : Env) (githubStats : Option GitHubStats) (score : ℚ)
    (scoreReasons : List String) : ℚ × List String :=
  match githubStats with
  | none => (score, scoreReasons)
  | some stats =>
    let s := score
    let rs := scoreReasons
    let (s, rs) :=
      if 10000 < stats.stars then (s + 10, rs ++ [jsStars10kReason])
      else if 1000 < stats.stars then (s + 5, rs ++ [jsStars1kReason])
      else (s, rs)
    let (s, rs) := if 100 < stats.forks then (s + 5, rs ++ [forksReason]) else (s, rs)
    let (s, rs) :=
      if 0 < stats.lastCommit then
        if (env.now - stats.lastCommit) / (1000 * 60 * 60 * 24 * 30) < 6 then
          (s + 5, rs ++ [recentCommitReason])
        else if 24 < (env.now - stats.lastCommit) / (1000 * 60 * 60 * 24 * 30) then
          (s - 10, rs ++ [jsNoUpdatesReason])
        else (s, rs)
      else (s, rs)
    (max 0 (min 100 s), rs)

/-- The Node.js built-in early return. -/
def jsBuiltinScore (name : String) : TrustScore :=
  { packageName := name
    score := some 100
    level := .high
    evidence :=
      { exists_ := true, downloads := 0, releaseAge := 0, multipleMaintainers := true
        vulnerabilities := 0, maintainerCount := 0, registryUrl := "", githubRepo := none }
    scoreReasons := ["📦 This is a Node.js built-in module and is always trusted."]
    topDownloads := 0
    releaseDate := ""
    riskFactors := []
    githubRepo := none }

/-- `JavaScriptScoringEngine.calculateScore` (the variant without cache or
ignore handling).  Its evidence object carries no `maintainerCount`,
modelled by 0.  Note that in the branch taken when risk factors exist the
returned score is `Math.min(score, 95)` of the unrounded intermediate
score, with no `Math.round`. -/
def jsCalculateScore (env : Env) (st : JsState) (name : String) (info : RegistryInfo) :
    TrustScore :=
  if NODE_BUILTINS.contains name then jsBuiltinScore name
  else
    let evidence : Evidence :=
      { exists_ := info.exists_
        downloads := info.downloads
        releaseAge := calculateReleaseAge env.now info.latestRelease
        multipleMaintainers := 2 ≤ info.maintainerCount
        vulnerabilities := info.highVulnCount
        maintainerCount := 0
        registryUrl := ""
        githubRepo := none }
    let score := jsComputeScore env.log10 evidence
    let isTop := st.topNpmPackages.contains (jsToLowerCase name)
    let topDownloads : ℚ :=
      if isTop then (st.topNpmDownloads.lookup (jsToLowerCase name)).getD 0 else 0
    let releaseDate := if 0 < info.latestRelease then env.formatDate info.latestRelease else ""
    let score := if isTop then max score 85 else score
    let scoreReasons : List String := if isTop then [jsTopReason] else []
    let githubStats := info.githubRepo.bind env.fetchStats
    let gh := jsGithubAdjust env githubStats score scoreReasons
    let score := gh.1
    let scoreReasons := gh.2
    let scoreReasons := scoreReasons
      ++ (if evidence.exists_ = false then [jsNotExistReason] else [])
      ++ (if evidence.downloads = 0 ∧ topDownloads = 0 then [noDownloadReason] else [])
      ++ (if evidence.releaseAge < 90 ∧ 0 < evidence.releaseAge then [veryRecentReason] else [])
      ++ (if evidence.multipleMaintainers = false then [singleMaintainerReason] else [])
      ++ (if 0 < evidence.vulnerabilities then [knownVulnReason] else [])
    let highRiskFactors : List String :=
      (if scoreReasons.any (fun r => strContains r "No updates on GitHub for over 2 years.")
       then [jsNoUpdatesRisk] else [])
      ++ (if evidence.downloads = 0 ∧ topDownloads = 0 then [noDownloadRisk] else [])
    let mediumRiskFactors : List String :=
      (if evidence.releaseAge < 90 ∧ 0 < evidence.releaseAge then [veryRecentRisk] else [])
      ++ (if evidence.multipleMaintainers = false then [singleMaintainerRisk] else [])
    let uniqueHigh := dedupFirst highRiskFactors
    let uniqueMedium := dedupFirst (mediumRiskFactors.filter fun f => !(uniqueHigh.contains f))
    let filteredScoreReasons := scoreReasons.filter jsReasonKept
    let boost : ℚ := (if isTop then 30 else 0)
      + (if 100000000 < topDownloads ∨ 100000000 < evidence.downloads then 20
         else if 10000000 < topDownloads ∨ 10000000 < evidence.downloads then 10
         else 0)
    let millionsOfDownloads : Bool :=
      decide (1000000 < topDownloads) || decide (1000000 < evidence.downloads)
    let activeRelease : Bool :=
      decide (0 < info.latestRelease)
        && decide ((env.now - info.latestRelease) / (1000 * 60 * 60 * 24) < 365)
    let activeGitHub : Bool :=
      match info.githubRepo.bind env.fetchStats with
      | some stats =>
        decide (0 < stats.lastCommit)
          && decide ((env.now - stats.lastCommit) / (1000 * 60 * 60 * 24) < 365)
      | none => false
    let riskPenalty : ℚ := uniqueHigh.length * 20 + uniqueMedium.length * 5
    let baseScore := jsComputeScore env.log10 evidence + boost - riskPenalty
    let isPerfect : Bool := isTop && millionsOfDownloads && activeRelease && activeGitHub
      && evidence.multipleMaintainers && decide (uniqueHigh = []) && decide (uniqueMedium = [])
    let risky : Bool := decide (0 < uniqueHigh.length) || decide (0 < uniqueMedium.length)
    let score := jsFinalScore score baseScore isPerfect risky
    let level := jsDetermineLevel score
    let riskFactors := uniqueHigh.map (fun f => (f, RiskColor.red))
      ++ uniqueMedium.map (fun f => (f, RiskColor.orange))
    if evidence.exists_ = false ∨ info.latestRelease = 0 then
      { packageName := name
        score := some 0
        level := .low
        evidence := evidence
        scoreReasons := filteredScoreReasons
        topDownloads := topDownloads
        releaseDate := releaseDate
        riskFactors := [(jsHallucinationRisk, RiskColor.red)]
        githubRepo := none }
    else
      { packageName := name
        score := some score
        level := level
        evidence := evidence
        scoreReasons := filteredScoreReasons
        topDownloads := topDownloads
        releaseDate := releaseDate
        riskFactors := riskFactors
        githubRepo := none }

/-! The unified terminal: package extraction from command lines and the
interactive security-prompt state machine (`src/types.ts`,
`UnifiedPkgGuardTerminal`). -/

/-- Package ecosystem tag. -/
inductive Ecosystem where
  | python
  | javascript
deriving DecidableEq, Repr

/-- ASCII `\s` (JavaScript whitespace restricted to ASCII). -/
def isJsSpace (c : Char) : Bool :=
  c = ' ' || c = '\t' || c = '\n' || c = '\r' || c = '\x0b' || c = '\x0c'

/-- `str.split(/\s+/)`: pieces between maximal whitespace runs, keeping
empty pieces at either end.  `cur` is the reversed current piece and
`afterSep` records that the previous character was whitespace (so a
further whitespace character extends the same separator run). -/
def splitWsAux (cur : List Char) (afterSep : Bool) : List Char → List String
  | [] => [String.mk cur.reverse]
  | c :: t =>
    if isJsSpace c then
      if afterSep then splitWsAux cur true t
      else String.mk cur.reverse :: splitWsAux [] true t
    else splitWsAux (c :: cur) false t

/-- `capture.split(/\s+/)`. -/
def splitWs (l : List Char) : List String := splitWsAux [] false l

/-- Match a literal word at the front, returning the remainder. -/
def matchLit : List Char → List Char → Option (List Char)
  | [], rest => some rest
  | _ :: _, [] => none
  | p :: ps, c :: cs => if p = c then matchLit ps cs else none

/-- Match `w₁ \s+ w₂ \s+ … wₙ` at the front, returning the remainder after
the last word.  Since all the words start with a non-space character, the
greedy `\s+` never needs to backtrack here. -/
def matchWords : List (List Char) → List Char → Option (List Char)
  | [], rest => some rest
  | [w], rest => matchLit w rest
  | w :: w2 :: ws, rest =>
    match matchLit w rest with
    | none => none
    | some r =>
      match r with
      | [] => none
      | c :: _ => if isJsSpace c then matchWords (w2 :: ws) (r.dropWhile isJsSpace) else none

/-- Try the whole install pattern `w₁ \s+ … wₙ \s+ (.+)` at the current
position.  The trailing `\s+ (.+)` needs one whitespace character and at
least one further character; when everything after the words is
whitespace, the greedy `\s+` gives one character back to `(.+)`. -/
def attemptAt (ws : List (List Char)) (s : List Char) : Option (List Char) :=
  match matchWords ws s with
  | none => none
  | some r =>
    let k := (r.takeWhile isJsSpace).length
    if 1 ≤ k ∧ 2 ≤ r.length then some (r.drop (min k (r.length - 1))) else none

/-- Unanchored leftmost regex search for an install pattern. -/
def searchPattern (ws : List (List Char)) : List Char → Option (List Char)
  | [] => attemptAt ws []
  | c :: t =>
    match attemptAt ws (c :: t) with
    | some cap => some cap
    | none => searchPattern ws t

/-- The part of `l` strictly before the first occurrence of `sep`
(`spec.split(sep)[0]`). -/
def takeBefore (sep : List Char) : List Char → List Char
  | [] => []
  | c :: t => if startsWithL sep (c :: t) then [] else c :: takeBefore sep t

/-- JavaScript `trim` (ASCII whitespace). -/
def jsTrim (l : List Char) : List Char :=
  ((l.dropWhile isJsSpace).reverse.dropWhile isJsSpace).reverse

/-- `UnifiedPkgGuardTerminal.cleanPackageName`: strip `==`, `>=`, `<=`
pins, `[extras]` and `@version` tags, then trim. -/
def cleanPackageName (spec : String) : String :=
  String.mk (jsTrim (takeBefore ['@']
    (takeBefore ['[']
      (takeBefore ['<', '=']
        (takeBefore ['>', '=']
          (takeBefore ['=', '='] spec.data))))))

/-- The fixed ordered pattern table of `extractPackageInfo`. -/
def installPatterns : List (List (List Char) × Ecosystem) :=
  [ (["pip", "install"].map String.data, .python)
  , (["pip3", "install"].map String.data, .python)
  , (["python", "-m", "pip", "install"].map String.data, .python)
  , (["poetry", "add"].map String.data, .python)
  , (["pipenv", "install"].map String.data, .python)
  , (["npm", "install"].map String.data, .javascript)
  , (["npm", "i"].map String.data, .javascript)
  , (["yarn", "add"].map String.data, .javascript)
  , (["pnpm", "add"].map String.data, .javascript)
  , (["bun", "add"].map String.data, .javascript) ]

/-- One iteration of the `extractPackageInfo` pattern loop: on a match,
split the capture on whitespace, clean each spec, and push every
non-empty name that does not start with `-`. -/
def extractFromPattern (command : String) (packages : List (String × Ecosystem))
    (pat : List (List Char) × Ecosystem) : List (String × Ecosystem) :=
  match searchPattern pat.1 command.data with
  | none => packages
  | some cap =>
    (splitWs cap).foldl
      (fun acc spec =>
        let cleanName := cleanPackageName spec
        if cleanName ≠ "" ∧ startsWithL ['-'] cleanName.data = false then
          acc ++ [(cleanName, pat.2)]
        else acc)
      packages

/-- `UnifiedPkgGuardTerminal.extractPackageInfo`. -/
def extractPackageInfo (command : String) : List (String × Ecosystem) :=
  installPatterns.foldl (extractFromPattern command) []

/-- A pending interactive approval (`pendingSecurityCheck`). -/
structure PendingCheck where
  command : String
  packages : List (String × Ecosystem)
deriving Repr

/-- Security-prompt state of the unified terminal, together with the
shared Ignore Registry it mutates through the `pkgguard.ignorePackage`
command, and the value handed to the pending `resolve` callback. -/
structure TerminalState where
  pendingSecurityCheck : Option PendingCheck
  isInSecurityPrompt : Bool
  ignoredPackages : List (String × String)
  resolved : Option Bool
deriving Repr

/-- The `pkgguard.ignorePackage` command (`src/extension.ts`): append the
package (with the optional note from the input box, an oracle here) to the
ignore file and reload it, so the registry now maps the name.  The
`Map.set` done by the reload is modelled by the front insert. -/
def ignorePackageCommand (noteFor : String → String) (name : String)
    (reg : List (String × String)) : List (String × String) :=
  (name, noteFor name) :: reg

/-- `UnifiedPkgGuardTerminal.ignorePackages`: ignore every package of the
pending check, in order. -/
def ignorePackagesAll (noteFor : String → String) (packages : List (String × Ecosystem))
    (reg : List (String × String)) : List (String × String) :=
  packages.foldl (fun r p => ignorePackageCommand noteFor p.1 r) reg

/-- `UnifiedPkgGuardTerminal.handleSecurityPromptInput`: one input event
while the security prompt is shown. -/
def handleSecurityPromptInput (noteFor : String → String) (data : String)
    (st : TerminalState) : TerminalState :=
  match st.pendingSecurityCheck with
  | none => st
  | some chk =>
    let char := jsToLowerCase data
    if char = "y" then
      { st with resolved := some true, isInSecurityPrompt := false, pendingSecurityCheck := none }
    else if char = "n" ∨ char = "\r" then
      { st with resolved := some false, isInSecurityPrompt := false, pendingSecurityCheck := none }
    else if char = "d" then
      st
    else if char = "i" then
      { st with
        ignoredPackages := ignorePackagesAll noteFor chk.packages st.ignoredPackages
        resolved := some true
        isInSecurityPrompt := false
        pendingSecurityCheck := none }
    else if char = "\x03" then
      { st with resolved := some false, isInSecurityPrompt := false, pendingSecurityCheck := none }
    else st

/-! Correctness of the Levenshtein dynamic program: the matrix computed by
`ScoringEngine.levenshtein` agrees with the classic recursive edit
distance. -/

theorem editDistance_nil_right (xs : List Char) : editDistance xs [] = xs.length := by
  cases xs <;> simp [editDistance]

theorem editDistance_nil_left (ys : List Char) : editDistance [] ys = ys.length := by
  simp [editDistance]

theorem editDistance_cons_cons (x y : Char) (xs ys : List Char) :
    editDistance (x :: xs) (y :: ys) =
      min (editDistance xs (y :: ys) + 1)
        (min (editDistance (x :: xs) ys + 1)
          (editDistance xs ys + (if x = y then 0 else 1))) := by
  simp [editDistance]

theorem distMin (p q r : ℕ) : min p q + r = min (p + r) (q + r) := by omega

/-- The two nested-minimum trees that appear when the front recurrence and
the back recurrence of the edit distance are expanded against each other
range over the same nine leaves. -/
theorem minShuffle (A B C D E F G H I c1 c2 : ℕ) :
    min (min (A + 1) (min (B + 1) (C + c1)) + 1)
      (min (min (D + 1) (min (E + 1) (F + c1)) + 1)
        (min (G + 1) (min (H + 1) (I + c1)) + c2)) =
    min (min (A + 1) (min (D + 1) (G + c2)) + 1)
      (min (min (B + 1) (min (E + 1) (H + c2)) + 1)
        (min (C + 1) (min (F + 1) (I + c2)) + c1)) := by
  simp only [distMin]
  ring_nf
  ac_rfl

set_option maxHeartbeats 400000 in
/-- The classic edit distance also satisfies the recurrence on the last
characters, which is the recurrence the DP matrix uses. -/
theorem editDistance_append_aux (n : ℕ) : ∀ (x y : Char) (u v : List Char),
    u.length + v.length ≤ n →
    editDistance (u ++ [x]) (v ++ [y]) =
      min (editDistance u (v ++ [y]) + 1)
        (min (editDistance (u ++ [x]) v + 1)
          (editDistance u v + (if x = y then 0 else 1))) := by
  induction n with
  | zero =>
    intro x y u v h
    have hu : u = [] := List.length_eq_zero.mp (by omega)
    have hv : v = [] := List.length_eq_zero.mp (by omega)
    subst hu; subst hv
    simp [editDistance]
  | succ n ih =>
    intro x y u v h
    match u, v with
    | [], [] => simp [editDistance]
    | [], b :: v' =>
      have IH1 := ih x y [] v' (by simp at h ⊢; omega)
      simp only [List.nil_append, List.cons_append] at IH1 ⊢
      simp only [editDistance, editDistance_nil_right, List.length_nil, List.length_cons,
        List.length_append] at IH1 ⊢
      rw [IH1]
      generalize (if x = y then (0 : ℕ) else 1) = c1
      generalize (if x = b then (0 : ℕ) else 1) = c2
      omega
    | a :: u', [] =>
      have IH1 := ih x y u' [] (by simp at h ⊢; omega)
      simp only [List.nil_append, List.cons_append] at IH1 ⊢
      simp only [editDistance, editDistance_nil_right, List.length_nil, List.length_cons,
        List.length_append] at IH1 ⊢
      rw [IH1]
      generalize (if x = y then (0 : ℕ) else 1) = c1
      generalize (if a = y then (0 : ℕ) else 1) = c2
      omega
    | a :: u', b :: v' =>
      have IHa := ih x y u' (b :: v') (by simp at h ⊢; omega)
      have IHb := ih x y (a :: u') v' (by simp at h ⊢; omega)
      have IHc := ih x y u' v' (by simp at h ⊢; omega)
      simp only [List.cons_append] at IHa IHb IHc ⊢
      simp only [editDistance_cons_cons]
      rw [IHa, IHb, IHc]
      generalize (if x = y then (0 : ℕ) else 1) = c1
      generalize (if a = b then (0 : ℕ) else 1) = c2
      generalize editDistance u' (b :: (v' ++ [y])) = A
      generalize editDistance (u' ++ [x]) (b :: v') = B
      generalize editDistance u' (b :: v') = C
      generalize editDistance (a :: u') (v' ++ [y]) = D
      generalize editDistance (a :: (u' ++ [x])) v' = E
      generalize editDistance (a :: u') v' = F
      generalize editDistance u' (v' ++ [y]) = G
      generalize editDistance (u' ++ [x]) v' = H
      generalize editDistance u' v' = I
      exact minShuffle A B C D E F G H I c1 c2

theorem editDistance_append (x y : Char) (u v : List Char) :
    editDistance (u ++ [x]) (v ++ [y]) =
      min (editDistance u (v ++ [y]) + 1)
        (min (editDistance (u ++ [x]) v + 1)
          (editDistance u v + (if x = y then 0 else 1))) :=
  editDistance_append_aux (u.length + v.length) x y u v le_rfl

/-- The DP cell `matrix[i][j]` is the edit distance of the length-`i` and
length-`j` prefixes. -/
theorem levMatrix_eq_editDistance (a b : List Char) : ∀ (n i j : ℕ), i + j ≤ n →
    i ≤ a.length → j ≤ b.length →
    levMatrix a b i j = editDistance (a.take i) (b.take j) := by
  intro n
  induction n with
  | zero =>
    intro i j hn hi hj
    have : i = 0 := by omega
    have : j = 0 := by omega
    subst_vars
    simp [levMatrix, editDistance]
  | succ n ih =>
    intro i j hn hi hj
    match i, j with
    | 0, j =>
      rw [levMatrix_zero, List.take_zero, editDistance_nil_left]
      simp [List.length_take, Nat.min_eq_left hj]
    | i + 1, 0 =>
      rw [levMatrix_succ_zero, List.take_zero, editDistance_nil_right]
      simp [List.length_take, Nat.min_eq_left hi]
    | i + 1, j + 1 =>
      have hia : i < a.length := hi
      have hjb : j < b.length := hj
      have ha : a.take (i + 1) = a.take i ++ [a.get ⟨i, hia⟩] := by
        rw [List.take_succ]
        simp [List.getElem?_eq_getElem hia, List.get_eq_getElem]
      have hb : b.take (j + 1) = b.take j ++ [b.get ⟨j, hjb⟩] := by
        rw [List.take_succ]
        simp [List.getElem?_eq_getElem hjb, List.get_eq_getElem]
      rw [levMatrix_succ_succ, ih i (j + 1) (by omega) (le_of_lt hia) hj,
        ih (i + 1) j (by omega) hi (le_of_lt hjb), ih i j (by omega) (le_of_lt hia) (le_of_lt hjb),
        ha, hb, editDistance_append, ← ha, ← hb]
      have hca : jsCharAt a i = a.get ⟨i, hia⟩ := by
        simp [jsCharAt, List.getD_eq_getElem?_getD, List.getElem?_eq_getElem hia,
          List.get_eq_getElem]
      have hcb : jsCharAt b j = b.get ⟨j, hjb⟩ := by
        simp [jsCharAt, List.getD_eq_getElem?_getD, List.getElem?_eq_getElem hjb,
          List.get_eq_getElem]
      rw [hca, hcb]

/-! Numeric facts about the final score selection and the level maps. -/

theorem jsRound_intCast (n : ℤ) : jsRound ((n : ℤ) : ℚ) = n := by
  have h : ⌊(1 / 2 : ℚ)⌋ = 0 := by
    rw [Int.floor_eq_zero_iff]
    constructor <;> norm_num
  unfold jsRound
  rw [Int.floor_int_add, h, add_zero]

theorem pyDetermineLevel_ne_ignored (q : ℚ) : pyDetermineLevel q ≠ .ignored := by
  unfold pyDetermineLevel
  split_ifs <;> simp

theorem jsDetermineLevel_ne_ignored (q : ℚ) : jsDetermineLevel q ≠ .ignored := by
  unfold jsDetermineLevel
  split_ifs <;> simp

/-- The Python engine's final score is an integer between 0 and 100. -/
theorem pyFinalScore_int (b : ℚ) (p : Bool) :
    ∃ n : ℤ, pyFinalScore b p = (n : ℚ) ∧ 0 ≤ n ∧ n ≤ 100 := by
  cases p with
  | true => exact ⟨100, by simp [pyFinalScore], by norm_num, le_rfl⟩
  | false =>
    refine ⟨max 0 (min 100 (jsRound b)), ?_, le_max_left 0 _, ?_⟩
    · simp only [pyFinalScore, Bool.false_eq_true, if_false]
      push_cast
      rfl
    · exact max_le (by norm_num) (min_le_left _ _)

/-- The invariant claimed for the Python engine's `TrustScore`s: the score
is `null` exactly for `ignored` results, and otherwise a natural number at
most 100 of which `level` is the 80/50 threshold function. -/
def scoreInvariantPy (ts : TrustScore) : Prop :=
  (ts.score = none ↔ ts.level = .ignored) ∧
  ∀ q, ts.score = some q → ∃ n : ℕ, q = (n : ℚ) ∧ n ≤ 100 ∧ ts.level = pyDetermineLevel q

/-- Range/level invariant of the 75/45 JavaScript engine: the score is
always some rational in `[0,100]` and the level is its 75/45 image (the
integrality part of the claim fails there, see the counterexample). -/
def scoreInvariantJs (ts : TrustScore) : Prop :=
  ∃ q : ℚ, ts.score = some q ∧ 0 ≤ q ∧ q ≤ 100 ∧ ts.level = jsDetermineLevel q

theorem scoreInvariantPy_ignored (name note : String) (repo : Option String) :
    scoreInvariantPy (pyIgnoredScore name note repo) := by
  constructor
  · simp [pyIgnoredScore]
  · intro q hq
    simp [pyIgnoredScore] at hq

theorem scoreInvariantPy_stdlib (name : String) (repo : Option String) :
    scoreInvariantPy (pyStdlibScore name repo) := by
  constructor
  · simp [pyStdlibScore]
  · intro q hq
    simp only [pyStdlibScore, Option.some.injEq] at hq
    exact ⟨100, by rw [← hq]; norm_num, by norm_num, by norm_num [← hq, pyDetermineLevel, pyStdlibScore]⟩

/-- Any record with `score = 0`, `level = low` satisfies the invariant. -/
theorem scoreInvariantPy_low0 (pn : String) (ev : Evidence) (rs : List String) (td : ℚ)
    (rd : String) (rf : List (String × RiskColor)) (gr : Option String) :
    scoreInvariantPy
      { packageName := pn, score := some 0, level := .low, evidence := ev, scoreReasons := rs
        topDownloads := td, releaseDate := rd, riskFactors := rf, githubRepo := gr } := by
  constructor
  · simp
  · intro q hq
    simp only [Option.some.injEq] at hq
    exact ⟨0, by rw [← hq]; norm_num, by norm_num, by norm_num [← hq, pyDetermineLevel]⟩

/-- The main return of the Python engine satisfies the invariant. -/
theorem scoreInvariantPy_final (pn : String) (ev : Evidence) (rs : List String) (td : ℚ)
    (rd : String) (rf : List (String × RiskColor)) (gr : Option String) (b : ℚ) (p : Bool) :
    scoreInvariantPy
      { packageName := pn, score := some ((jsRound (pyFinalScore b p) : ℤ) : ℚ)
        level := pyDetermineLevel (pyFinalScore b p), evidence := ev, scoreReasons := rs
        topDownloads := td, releaseDate := rd, riskFactors := rf, githubRepo := gr } := by
  obtain ⟨n, hn, hn0, hn100⟩ := pyFinalScore_int b p
  constructor
  · simp [pyDetermineLevel_ne_ignored]
  · intro q hq
    simp only [Option.some.injEq] at hq
    refine ⟨n.toNat, ?_, ?_, ?_⟩
    · rw [← hq, hn, jsRound_intCast]
      have : n = (n.toNat : ℤ) := (Int.toNat_of_nonneg hn0).symm
      exact_mod_cast congrArg (fun z : ℤ => (z : ℚ)) this
    · omega
    · rw [← hq, hn, jsRound_intCast, ← hn]

/-- `ScoringEngine.levenshtein` computes the classic dynamic-programming
edit distance (unit-cost insert, delete, substitute). -/
theorem levenshtein_eq_editDistance (a b : String) :
    levenshtein a b = editDistance a.data b.data := by
  unfold levenshtein
  split
  · next h =>
    rcases h with h | h
    · rw [h]
      simp [editDistance]
    · rw [h, editDistance_nil_right]
      simp
  · next h =>
    rw [levMatrix_eq_editDistance a.data b.data (a.data.length + b.data.length)
      a.data.length b.data.length le_rfl le_rfl le_rfl]
    rw [List.take_length, List.take_length]

/-! Branch lemmas for the two `calculateScore` embeddings. -/

theorem lookup_mem {β : Type} : ∀ (l : List (String × β)) (k : String) (v : β),
    l.lookup k = some v → (k, v) ∈ l := by
  intro l
  induction l with
  | nil => intro k v h; simp [List.lookup] at h
  | cons e t ih =>
    intro k v h
    obtain ⟨a, b⟩ := e
    simp only [List.lookup] at h
    split at h
    · next heq =>
      cases h
      have hk : k = a := eq_of_beq heq
      subst hk
      exact List.mem_cons_self _ _
    · exact List.mem_cons_of_mem _ (ih k v h)

theorem getCachedScore_mem (cache : List (String × TrustScore × ℚ)) (lang name : String)
    (ttl now : ℚ) (c : TrustScore) (h : getCachedScore cache lang name ttl now = some c) :
    ∃ ts, (lang ++ ":" ++ name, c, ts) ∈ cache := by
  unfold getCachedScore at h
  cases hl : cache.lookup (lang ++ ":" ++ name) with
  | none => rw [hl] at h; cases h
  | some p =>
    obtain ⟨s, t⟩ := p
    rw [hl] at h
    dsimp only at h
    split_ifs at h with hf
    · obtain rfl : s = c := Option.some.inj h
      exact ⟨t, lookup_mem _ _ _ hl⟩

/-- Every branch of the main Python scoring body satisfies the invariant. -/
theorem pyScoreMain_invariant (env : Env) (st : PyState) (name : String) (info : RegistryInfo)
    (repo : Option String) : scoreInvariantPy (pyScoreMain env st name info repo).1 := by
  simp only [pyScoreMain]
  split
  · exact scoreInvariantPy_stdlib name repo
  · split
    · exact scoreInvariantPy_low0 _ _ _ _ _ _ _
    · exact scoreInvariantPy_final _ _ _ _ _ _ _ _ _

/-- The Python `calculateScore` invariant, assuming every cached entry
satisfies it (cache entries are previous outputs). -/
theorem pyCalculateScore_invariant (env : Env) (st : PyState) (name : String)
    (info : RegistryInfo) (hcache : ∀ e ∈ st.cache, scoreInvariantPy e.2.1) :
    scoreInvariantPy (pyCalculateScore env st name info).1 := by
  simp only [pyCalculateScore]
  split
  · exact scoreInvariantPy_ignored _ _ _
  · split
    · next c heq hw =>
      obtain ⟨ts, hmem⟩ := getCachedScore_mem _ _ _ _ _ _ heq
      exact hcache _ hmem
    · exact pyScoreMain_invariant _ _ _ _ _

theorem jsComputeScore_bounds (log10 : ℚ → ℚ) (e : Evidence) :
    0 ≤ jsComputeScore log10 e ∧ jsComputeScore log10 e ≤ 100 :=
  ⟨le_max_left _ _, max_le (by norm_num) (min_le_left _ _)⟩

theorem topFloor_bounds (c : ℚ) (t : Bool) (h0 : 0 ≤ c) (h1 : c ≤ 100) :
    0 ≤ (if t = true then max c 85 else c) ∧ (if t = true then max c 85 else c) ≤ 100 := by
  cases t with
  | false => simpa using ⟨h0, h1⟩
  | true =>
    simp only [if_pos rfl]
    exact ⟨le_trans h0 (le_max_left _ _), max_le h1 (by norm_num)⟩

theorem jsGithubAdjust_bounds (env : Env) (o : Option GitHubStats) (s : ℚ) (rs : List String)
    (h0 : 0 ≤ s) (h1 : s ≤ 100) :
    0 ≤ (jsGithubAdjust env o s rs).1 ∧ (jsGithubAdjust env o s rs).1 ≤ 100 := by
  cases o with
  | none => simpa [jsGithubAdjust] using ⟨h0, h1⟩
  | some stats =>
    simp only [jsGithubAdjust]
    repeat' split
    all_goals exact ⟨le_max_left _ _, max_le (by norm_num) (min_le_left _ _)⟩

theorem jsGhTop_bounds (env : Env) (o : Option GitHubStats) (t : Bool) (e : Evidence)
    (rs : List String) :
    0 ≤ (jsGithubAdjust env o
          (if t = true then max (jsComputeScore env.log10 e) 85 else jsComputeScore env.log10 e)
          rs).1
    ∧ (jsGithubAdjust env o
          (if t = true then max (jsComputeScore env.log10 e) 85 else jsComputeScore env.log10 e)
          rs).1 ≤ 100 :=
  jsGithubAdjust_bounds env o _ rs
    (topFloor_bounds _ t (jsComputeScore_bounds env.log10 e).1 (jsComputeScore_bounds env.log10 e).2).1
    (topFloor_bounds _ t (jsComputeScore_bounds env.log10 e).1 (jsComputeScore_bounds env.log10 e).2).2

theorem jsFinalScore_bounds (g b : ℚ) (p r : Bool) (hg0 : 0 ≤ g) (hg1 : g ≤ 100) :
    0 ≤ jsFinalScore g b p r ∧ jsFinalScore g b p r ≤ 100 := by
  unfold jsFinalScore
  split_ifs
  · norm_num
  · exact ⟨le_min hg0 (by norm_num), le_trans (min_le_right _ _) (by norm_num)⟩
  · exact ⟨le_max_left _ _, max_le (by norm_num) (min_le_left _ _)⟩

theorem scoreInvariantJs_builtin (name : String) : scoreInvariantJs (jsBuiltinScore name) :=
  ⟨100, rfl, by norm_num, by norm_num, by norm_num [jsBuiltinScore, jsDetermineLevel]⟩

theorem scoreInvariantJs_low0 (pn : String) (ev : Evidence) (rs : List String) (td : ℚ)
    (rd : String) (rf : List (String × RiskColor)) (gr : Option String) :
    scoreInvariantJs
      { packageName := pn, score := some 0, level := .low, evidence := ev, scoreReasons := rs
        topDownloads := td, releaseDate := rd, riskFactors := rf, githubRepo := gr } :=
  ⟨0, rfl, le_rfl, by norm_num, by norm_num [jsDetermineLevel]⟩

theorem scoreInvariantJs_final (pn : String) (ev : Evidence) (rs : List String) (td : ℚ)
    (rd : String) (rf : List (String × RiskColor)) (gr : Option String) (g b : ℚ) (p r : Bool)
    (hg0 : 0 ≤ g) (hg1 : g ≤ 100) :
    scoreInvariantJs
      { packageName := pn, score := some (jsFinalScore g b p r)
        level := jsDetermineLevel (jsFinalScore g b p r), evidence := ev, scoreReasons := rs
        topDownloads := td, releaseDate := rd, riskFactors := rf, githubRepo := gr } :=
  ⟨jsFinalScore g b p r, rfl, (jsFinalScore_bounds g b p r hg0 hg1).1,
    (jsFinalScore_bounds g b p r hg0 hg1).2, rfl⟩

/-- Every branch of the 75/45 JavaScript engine yields a score in
`[0,100]` with its 75/45 level. -/
theorem jsCalculateScore_invariant (env : Env) (st : JsState) (name : String)
    (info : RegistryInfo) : scoreInvariantJs (jsCalculateScore env st name info) := by
  simp only [jsCalculateScore]
  split
  · exact scoreInvariantJs_builtin name
  · split
    · exact scoreInvariantJs_low0 _ _ _ _ _ _ _
    · exact scoreInvariantJs_final _ _ _ _ _ _ _ _ _ _ _
        (jsGhTop_bounds env _ _ _ _).1 (jsGhTop_bounds env _ _ _ _).2

/-- When the name is not ignored, there is no fresh cache entry and the
name was not just unignored, `calculateScore` runs the main body on the
unchanged state. -/
theorem pyCalculateScore_route (env : Env) (st : PyState) (name : String) (info : RegistryInfo)
    (h1 : isIgnoredPackagePriv st.ignoredPackages name = none)
    (h2 : getCachedScore st.cache "python" name env.ttl env.now = none)
    (h3 : st.recentlyIgnored.contains name = false) :
    pyCalculateScore env st name info = pyScoreMain env st name info (pyDetectRepo env info name) := by
  simp only [pyCalculateScore, h1, h2, h3, Bool.false_eq_true, if_false]

/-! Concrete fixtures used by witnesses and counterexamples. -/

/-- A concrete environment: a fixed clock, no GitHub data, no repository
links, the default 48-hour TTL. -/
def cxEnv : Env :=
  { now := 1000000000000
    log10 := fun _ => 0
    fetchStats := fun _ => none
    extractRepo := fun _ _ => none
    formatDate := fun _ => ""
    ttl := 172800 }

/-- An existing package released 10.5 days before `cxEnv.now`, two
maintainers, no downloads, no vulnerabilities, no repository. -/
def cxInfoFresh : RegistryInfo :=
  { exists_ := true
    downloads := 0
    latestRelease := 1000000000000 - 907200000
    maintainerCount := 2
    highVulnCount := 0
    githubRepo := none
    registryUrl := "" }

/-- An existing package released 200 days before `cxEnv.now`, one
maintainer, no downloads, no vulnerabilities, no repository. -/
def cxInfoOld : RegistryInfo :=
  { exists_ := true
    downloads := 0
    latestRelease := 1000000000000 - 17280000000
    maintainerCount := 1
    highVulnCount := 0
    githubRepo := none
    registryUrl := "" }

/-- Metadata of a package the registry does not know. -/
def cxInfoMissing : RegistryInfo :=
  { exists_ := false
    downloads := 0
    latestRelease := 0
    maintainerCount := 0
    highVulnCount := 0
    githubRepo := none
    registryUrl := "" }

/-- Python engine state whose top-package set is just `requests`. -/
def cxStateTop : PyState :=
  { topPyPiPackages := ["requests"]
    topPyPiDownloads := []
    ignoredPackages := []
    recentlyIgnored := []
    cache := [] }

/-- Empty Python engine state. -/
def cxStateEmpty : PyState :=
  { topPyPiPackages := []
    topPyPiDownloads := []
    ignoredPackages := []
    recentlyIgnored := []
    cache := [] }

/-- Empty JavaScript engine state. -/
def cxJsState : JsState :=
  { topNpmPackages := []
    topNpmDownloads := [] }

/-! Claim C1. -/

/-- C1: For every name and `RegistryInfo`, the Python engine's TrustScore
has `score = null` exactly when `level = ignored` and otherwise an integer
in `[0,100]` whose 80/50-threshold image is `level` (assuming every cached
entry satisfies the same invariant, since a fresh cache hit is returned
verbatim); the 75/45 JavaScript engine always returns some score in
`[0,100]` whose 75/45-threshold image is `level` — but, as amended, its
score need not be an integer. -/
theorem C1_trustScore_invariant :
    (∀ (env : Env) (st : PyState) (name : String) (info : RegistryInfo),
        (∀ e ∈ st.cache, scoreInvariantPy e.2.1) →
        scoreInvariantPy (pyCalculateScore env st name info).1)
    ∧ (∀ (env : Env) (st : JsState) (name : String) (info : RegistryInfo),
        scoreInvariantJs (jsCalculateScore env st name info)) :=
  ⟨fun env st name info hcache => pyCalculateScore_invariant env st name info hcache,
   fun env st name info => jsCalculateScore_invariant env st name info⟩

/-- C1 witness: the invariant instantiated at concrete inputs, the cache
hypothesis discharged on the empty cache. -/
theorem C1_trustScore_invariant_witness :
    scoreInvariantPy (pyCalculateScore cxEnv cxStateTop "requests" cxInfoOld).1
    ∧ scoreInvariantJs (jsCalculateScore cxEnv cxJsState "leftpadx" cxInfoFresh) :=
  ⟨C1_trustScore_invariant.1 cxEnv cxStateTop "requests" cxInfoOld
      (by intro e he; simp [cxStateTop] at he),
   C1_trustScore_invariant.2 cxEnv cxJsState "leftpadx" cxInfoFresh⟩

/-- C1 counterexample: the cited 75/45 JavaScript engine returns the
score `2337/40 = 58.425` for a package with fractional release age and a
risk factor (its risk branch caps the unrounded intermediate score), so
the returned score is not an integer. -/
theorem C1_jsScore_not_integer_counterexample :
    (jsCalculateScore cxEnv cxJsState "leftpadx" cxInfoFresh).score = some (2337 / 40 : ℚ)
    ∧ ¬ ∃ n : ℕ, (2337 / 40 : ℚ) = (n : ℚ) := by
  constructor
  · have h1 : NODE_BUILTINS.contains "leftpadx" = false := by decide
    have h2 : strContains noDownloadReason "No updates on GitHub for over 2 years." = false := by
      decide
    have h3 : strContains veryRecentReason "No updates on GitHub for over 2 years." = false := by
      decide
    simp only [jsCalculateScore, cxEnv, cxJsState, cxInfoFresh, h1, h2, h3]
    norm_num [jsComputeScore, calculateReleaseAge, jsGithubAdjust, jsFinalScore, jsRound,
      dedupFirst, dedupFirstAux, noDownloadRisk, veryRecentRisk, jsDetermineLevel]
  · rintro ⟨n, hn⟩
    have h40 : ((n : ℚ) * 40) = 2337 := by rw [← hn]; norm_num
    have hnat : (n * 40 : ℕ) = 2337 := by exact_mod_cast h40
    omega

/-! Claim C2. -/

/-- C2 (amended): when the package is not ignored (by the engine's own
check), has no fresh cache entry, was not just unignored, and is not a
Python standard-library name, then metadata with `exists = false` or a
zero latest-release timestamp forces exactly `score = 0`, `level = low`
and the single dedicated manual-verification risk factor, whatever the
other signals are.  (The unamended claim also promised this over the
standard-library, ignored and cached short-circuits; the counterexample
shows the stdlib branch wins instead.) -/
theorem C2_hallucination_override (env : Env) (st : PyState) (name : String)
    (info : RegistryInfo)
    (h1 : isIgnoredPackagePriv st.ignoredPackages name = none)
    (h2 : getCachedScore st.cache "python" name env.ttl env.now = none)
    (h3 : st.recentlyIgnored.contains name = false)
    (h4 : PYTHON_STDLIB.contains name = false)
    (h5 : info.exists_ = false ∨ info.latestRelease = 0) :
    (pyCalculateScore env st name info).1.score = some 0
    ∧ (pyCalculateScore env st name info).1.level = .low
    ∧ (pyCalculateScore env st name info).1.riskFactors = [(hallucinationRisk, .red)] := by
  rw [pyCalculateScore_route env st name info h1 h2 h3]
  simp only [pyScoreMain, h4, Bool.false_eq_true, if_false]
  split
  · next h => simp
  · next h => exact absurd h5 h

/-- C2 witness: a nonexistent package scores 0/low with the dedicated
risk factor. -/
theorem C2_hallucination_override_witness :
    (pyCalculateScore cxEnv cxStateEmpty "zzz" cxInfoMissing).1.score = some 0
    ∧ (pyCalculateScore cxEnv cxStateEmpty "zzz" cxInfoMissing).1.level = .low
    ∧ (pyCalculateScore cxEnv cxStateEmpty "zzz" cxInfoMissing).1.riskFactors
        = [(hallucinationRisk, .red)] :=
  C2_hallucination_override cxEnv cxStateEmpty "zzz" cxInfoMissing (by decide) rfl (by decide)
    (by decide) (Or.inl (by decide))

/-- C2 counterexample: `os` is a standard-library name, and the
standard-library short-circuit runs before the hallucination check, so
metadata with `exists = false` still yields `score = 100, level = high` —
the claim's "regardless of ... standard-library name" fails. -/
theorem C2_stdlib_beats_hallucination_counterexample :
    (pyCalculateScore cxEnv cxStateEmpty "os" cxInfoMissing).1.score = some 100
    ∧ (pyCalculateScore cxEnv cxStateEmpty "os" cxInfoMissing).1.level = .high := by
  have h1 : isIgnoredPackagePriv cxStateEmpty.ignoredPackages "os" = none := by decide
  have h2 : getCachedScore cxStateEmpty.cache "python" "os" cxEnv.ttl cxEnv.now = none := rfl
  have h3 : cxStateEmpty.recentlyIgnored.contains "os" = false := by decide
  have h4 : "os" ∈ PYTHON_STDLIB := by decide
  rw [pyCalculateScore_route _ _ _ _ h1 h2 h3]
  simp [pyScoreMain, h4, pyStdlibScore]

/-! Claim C3. -/

/-- The single GitHub pass only appends reasons, so earlier reasons
survive it. -/
theorem pyGithubAdjust_reasons_mono (env : Env) (o : Option GitHubStats) (s : ℚ)
    (rs : List String) (r : String) (h : r ∈ rs) : r ∈ (pyGithubAdjust env o s rs).2 := by
  cases o with
  | none => simpa [pyGithubAdjust] using h
  | some stats =>
    simp only [pyGithubAdjust]
    repeat' split
    all_goals simp [List.mem_append, h]

/-- C3 (amended): a top package (case-insensitively in the preloaded set)
always gets the "top package" reason on the main scoring path; the 85
floor, however, is applied to an intermediate variable that the final
boosted recompute overwrites, so the returned score is
`clamp(round(computeScore + boost - riskPenalty))` and can be below 85
(see the counterexample, where it is 45). -/
theorem C3_top_package_reason (env : Env) (st : PyState) (name : String) (info : RegistryInfo)
    (h1 : isIgnoredPackagePriv st.ignoredPackages name = none)
    (h2 : getCachedScore st.cache "python" name env.ttl env.now = none)
    (h3 : st.recentlyIgnored.contains name = false)
    (h4 : PYTHON_STDLIB.contains name = false)
    (h5 : st.topPyPiPackages.contains (jsToLowerCase name) = true) :
    topPackageReason ∈ (pyCalculateScore env st name info).1.scoreReasons := by
  rw [pyCalculateScore_route env st name info h1 h2 h3]
  simp only [pyScoreMain, h4, Bool.false_eq_true, if_false]
  split
  all_goals {
    refine List.mem_filter.mpr ⟨?_, by decide⟩
    repeat apply List.mem_append_left
    apply pyGithubAdjust_reasons_mono
    have h5m : jsToLowerCase name ∈ st.topPyPiPackages := by simpa using h5
    rcases hsq : isTyposquat st.topPyPiPackages name with _ | t <;>
      simp [hsq, h5m]
  }

/-- C3 witness: scoring the top package `requests` yields the
top-package reason. -/
theorem C3_top_package_reason_witness :
    topPackageReason ∈ (pyCalculateScore cxEnv cxStateTop "requests" cxInfoOld).1.scoreReasons :=
  C3_top_package_reason cxEnv cxStateTop "requests" cxInfoOld (by decide) rfl (by decide)
    (by decide) (by decide)

/-- C3 counterexample: the top package `requests` (old release, single
maintainer, no download data) ends with final score 45, so the claimed
floor `score >= 85` does not hold of the returned TrustScore. -/
theorem C3_top_package_floor_counterexample :
    (pyCalculateScore cxEnv cxStateTop "requests" cxInfoOld).1.score = some 45
    ∧ (45 : ℚ) < 85 := by
  have h1 : isIgnoredPackagePriv cxStateTop.ignoredPackages "requests" = none := by decide
  have h2 : getCachedScore cxStateTop.cache "python" "requests" cxEnv.ttl cxEnv.now = none := rfl
  have h3 : cxStateTop.recentlyIgnored.contains "requests" = false := by decide
  have h4 : PYTHON_STDLIB.contains "requests" = false := by decide
  have hsq : isTyposquat cxStateTop.topPyPiPackages "requests" = none := by decide
  have htop : jsToLowerCase "requests" ∈ cxStateTop.topPyPiPackages := by decide
  have hlk : cxStateTop.topPyPiDownloads.lookup (jsToLowerCase "requests") = none := by decide
  have hlc : jsToLowerCase "requests" = "requests" := by decide
  rw [pyCalculateScore_route _ _ _ _ h1 h2 h3]
  simp only [pyScoreMain, h4, Bool.false_eq_true, if_false, hsq, htop, hlk, hlc, cxEnv, cxInfoOld,
    cxStateTop]
  norm_num [pyComputeScore, calculateReleaseAge, pyGithubAdjust, pyFinalScore, jsRound,
    dedupFirst, dedupFirstAux, pyDetectRepo, noDownloadRisk, veryRecentRisk,
    singleMaintainerRisk, lowDownloadRisk, pyDetermineLevel]

/-! Claim C4. -/

/-- Python engine state whose top-package set is just `np`. -/
def cx4State : PyState :=
  { topPyPiPackages := ["np"]
    topPyPiDownloads := []
    ignoredPackages := []
    recentlyIgnored := []
    cache := [] }

/-- A typosquat hit is a lower-cased top name at Levenshtein distance
exactly 1 that is not the (lower-cased) scored name itself. -/
theorem isTyposquat_spec (tops : List String) (name t : String)
    (h : isTyposquat tops name = some t) :
    t ≠ jsToLowerCase name ∧ levenshtein (jsToLowerCase name) t = 1 := by
  unfold isTyposquat at h
  obtain ⟨x, hx, hxt⟩ := Option.map_eq_some'.mp h
  have hp := List.find?_some hx
  have hp' := of_decide_eq_true hp
  exact ⟨by rw [← hxt]; exact fun e => hp'.1 e.symm, by rw [← hxt]; exact hp'.2⟩

/-- On the main path a typosquat hit against a non-top name emits the
"possible typosquatting" reason naming the confused package. -/
theorem pyTyposquat_reason_emitted (env : Env) (st : PyState) (name t : String)
    (info : RegistryInfo)
    (h1 : isIgnoredPackagePriv st.ignoredPackages name = none)
    (h2 : getCachedScore st.cache "python" name env.ttl env.now = none)
    (h3 : st.recentlyIgnored.contains name = false)
    (h4 : PYTHON_STDLIB.contains name = false)
    (hsq : isTyposquat st.topPyPiPackages name = some t)
    (htop : st.topPyPiPackages.contains (jsToLowerCase name) = false)
    (ht : st.topPyPiPackages.contains (jsToLowerCase t) = true)
    (hkeep : pyReasonKept (typosquatReason t) = true) :
    typosquatReason t ∈ (pyCalculateScore env st name info).1.scoreReasons := by
  rw [pyCalculateScore_route env st name info h1 h2 h3]
  simp only [pyScoreMain, h4, Bool.false_eq_true, if_false]
  split
  all_goals {
    refine List.mem_filter.mpr ⟨?_, hkeep⟩
    repeat apply List.mem_append_left
    apply pyGithubAdjust_reasons_mono
    have hm : jsToLowerCase name ∉ st.topPyPiPackages := by simpa using htop
    have htm : jsToLowerCase t ∈ st.topPyPiPackages := by simpa using ht
    simp [hsq, hm, htm, List.mem_append]
  }

/-- C4 (amended): `levenshtein` computes the classic DP edit distance
(unit-cost insert/delete/substitute); a typosquat match is at distance
exactly 1 and never an exact match (distance 0); and on the main path a
match against a non-top name emits the "possible typosquatting" reason
naming the confused package.  The −60 penalty, however, is applied to an
intermediate score that the final boosted recompute discards, so the
returned score is unaffected (see the counterexample). -/
theorem C4_typosquat_detection :
    (∀ a b : String, levenshtein a b = editDistance a.data b.data)
    ∧ (∀ (tops : List String) (name t : String), isTyposquat tops name = some t →
        t ≠ jsToLowerCase name ∧ levenshtein (jsToLowerCase name) t = 1)
    ∧ (∀ (env : Env) (st : PyState) (name t : String) (info : RegistryInfo),
        isIgnoredPackagePriv st.ignoredPackages name = none →
        getCachedScore st.cache "python" name env.ttl env.now = none →
        st.recentlyIgnored.contains name = false →
        PYTHON_STDLIB.contains name = false →
        isTyposquat st.topPyPiPackages name = some t →
        st.topPyPiPackages.contains (jsToLowerCase name) = false →
        st.topPyPiPackages.contains (jsToLowerCase t) = true →
        pyReasonKept (typosquatReason t) = true →
        typosquatReason t ∈ (pyCalculateScore env st name info).1.scoreReasons) :=
  ⟨levenshtein_eq_editDistance, isTyposquat_spec,
   fun env st name t info h1 h2 h3 h4 hsq htop ht hkeep =>
     pyTyposquat_reason_emitted env st name t info h1 h2 h3 h4 hsq htop ht hkeep⟩

/-- C4 witness: `nq` against top set `np` is a distance-1 typosquat, and
scoring it emits the reason naming `np`. -/
theorem C4_typosquat_detection_witness :
    levenshtein "nq" "np" = editDistance "nq".data "np".data
    ∧ ("np" ≠ jsToLowerCase "nq" ∧ levenshtein (jsToLowerCase "nq") "np" = 1)
    ∧ typosquatReason "np" ∈ (pyCalculateScore cxEnv cx4State "nq" cxInfoOld).1.scoreReasons :=
  ⟨C4_typosquat_detection.1 "nq" "np",
   C4_typosquat_detection.2.1 cx4State.topPyPiPackages "nq" "np" (by decide),
   C4_typosquat_detection.2.2 cxEnv cx4State "nq" "np" cxInfoOld (by decide) rfl (by decide)
     (by decide) (by decide) (by decide) (by decide) (by decide)⟩

/-- C4 counterexample: `nq` is flagged as a typosquat of `np`, yet its
final score equals that of the unflagged `zz` with identical metadata —
no 60 points are subtracted from the returned score. -/
theorem C4_penalty_dropped_counterexample :
    isTyposquat cx4State.topPyPiPackages "nq" = some "np"
    ∧ (pyCalculateScore cxEnv cx4State "nq" cxInfoOld).1.score = some 15
    ∧ (pyCalculateScore cxEnv cx4State "zz" cxInfoOld).1.score = some 15 := by
  refine ⟨by decide, ?_, ?_⟩
  · have h1 : isIgnoredPackagePriv cx4State.ignoredPackages "nq" = none := by decide
    have h2 : getCachedScore cx4State.cache "python" "nq" cxEnv.ttl cxEnv.now = none := rfl
    have h3 : cx4State.recentlyIgnored.contains "nq" = false := by decide
    have h4 : PYTHON_STDLIB.contains "nq" = false := by decide
    have hsq : isTyposquat cx4State.topPyPiPackages "nq" = some "np" := by decide
    have hm : jsToLowerCase "nq" ∉ cx4State.topPyPiPackages := by decide
    have htm : jsToLowerCase "np" ∈ cx4State.topPyPiPackages := by decide
    have hlk : cx4State.topPyPiDownloads.lookup (jsToLowerCase "nq") = none := by decide
    have hne : ¬(jsToLowerCase "nq" = "np") := by decide
    rw [pyCalculateScore_route _ _ _ _ h1 h2 h3]
    simp only [pyScoreMain, h4, Bool.false_eq_true, if_false, hsq, hm, htm, hlk, cxEnv,
      cxInfoOld, cx4State]
    norm_num [pyComputeScore, calculateReleaseAge, pyGithubAdjust, pyFinalScore, jsRound,
      dedupFirst, dedupFirstAux, pyDetectRepo, noDownloadRisk, veryRecentRisk,
      singleMaintainerRisk, lowDownloadRisk, pyDetermineLevel, hne]
  · have h1 : isIgnoredPackagePriv cx4State.ignoredPackages "zz" = none := by decide
    have h2 : getCachedScore cx4State.cache "python" "zz" cxEnv.ttl cxEnv.now = none := rfl
    have h3 : cx4State.recentlyIgnored.contains "zz" = false := by decide
    have h4 : PYTHON_STDLIB.contains "zz" = false := by decide
    have hsq : isTyposquat cx4State.topPyPiPackages "zz" = none := by decide
    have hm : jsToLowerCase "zz" ∉ cx4State.topPyPiPackages := by decide
    have hlk : cx4State.topPyPiDownloads.lookup (jsToLowerCase "zz") = none := by decide
    have hne : ¬(jsToLowerCase "zz" = "np") := by decide
    rw [pyCalculateScore_route _ _ _ _ h1 h2 h3]
    simp only [pyScoreMain, h4, Bool.false_eq_true, if_false, hsq, hm, hlk, cxEnv,
      cxInfoOld, cx4State]
    norm_num [pyComputeScore, calculateReleaseAge, pyGithubAdjust, pyFinalScore, jsRound,
      dedupFirst, dedupFirstAux, pyDetectRepo, noDownloadRisk, veryRecentRisk,
      singleMaintainerRisk, lowDownloadRisk, pyDetermineLevel, hne]

/-! Claim C5. -/

/-- C5 (amended): on the main scoring path (not ignored, no fresh cache
hit, not just unignored, not a standard-library name) and when the
package exists with a known release, the computed TrustScore is persisted
into the cache keyed by `("python", name)` before returning.  The
ignored, standard-library, cache-hit and hallucination returns do NOT
write the cache (see the counterexample). -/
theorem C5_cache_persisted (env : Env) (st : PyState) (name : String) (info : RegistryInfo)
    (h1 : isIgnoredPackagePriv st.ignoredPackages name = none)
    (h2 : getCachedScore st.cache "python" name env.ttl env.now = none)
    (h3 : st.recentlyIgnored.contains name = false)
    (h4 : PYTHON_STDLIB.contains name = false)
    (h5 : info.exists_ = true)
    (h6 : ¬ info.latestRelease = 0) :
    (pyCalculateScore env st name info).2.cache
      = setCachedScore st.cache "python" name (pyCalculateScore env st name info).1 env.now := by
  rw [pyCalculateScore_route env st name info h1 h2 h3]
  simp only [pyScoreMain, h4, Bool.false_eq_true, if_false]
  split
  · next h =>
    rcases h with h | h
    · rw [h5] at h; cases h
    · exact absurd h h6
  · rfl

/-- C5 witness: a successful scoring run inserts its result at the head
of the cache. -/
theorem C5_cache_persisted_witness :
    (pyCalculateScore cxEnv cxStateEmpty "pkg" cxInfoOld).2.cache
      = setCachedScore cxStateEmpty.cache "python" "pkg"
          (pyCalculateScore cxEnv cxStateEmpty "pkg" cxInfoOld).1 cxEnv.now :=
  C5_cache_persisted cxEnv cxStateEmpty "pkg" cxInfoOld (by decide) rfl (by decide) (by decide)
    rfl (by norm_num [cxInfoOld])

/-- C5 counterexample: a hallucination result (`score = 0, level = low`)
is returned WITHOUT being persisted — the state is unchanged and the
cache still misses — contradicting "ignored and hallucination results are
cached too". -/
theorem C5_hallucination_not_cached_counterexample :
    (pyCalculateScore cxEnv cxStateEmpty "zzz" cxInfoMissing).2 = cxStateEmpty
    ∧ getCachedScore (pyCalculateScore cxEnv cxStateEmpty "zzz" cxInfoMissing).2.cache
        "python" "zzz" cxEnv.ttl cxEnv.now = none := by
  have h1 : isIgnoredPackagePriv cxStateEmpty.ignoredPackages "zzz" = none := by decide
  have h2 : getCachedScore cxStateEmpty.cache "python" "zzz" cxEnv.ttl cxEnv.now = none := rfl
  have h3 : cxStateEmpty.recentlyIgnored.contains "zzz" = false := by decide
  have h4 : PYTHON_STDLIB.contains "zzz" = false := by decide
  rw [pyCalculateScore_route _ _ _ _ h1 h2 h3]
  simp only [pyScoreMain, h4, Bool.false_eq_true, if_false]
  constructor
  · split
    · rfl
    · next h => exact absurd (Or.inl rfl) h
  · split
    · rfl
    · next h => exact absurd (Or.inl rfl) h

/-! Claim C6. -/

/-- An ignore entry whose note is empty (a bare `evil-pkg` line in the
ignore file). -/
def cx6State : PyState :=
  { topPyPiPackages := [], topPyPiDownloads := [], ignoredPackages := [("evil-pkg", "")]
    recentlyIgnored := [], cache := [] }

/-- The same entry with a non-empty note. -/
def cx6NoteState : PyState :=
  { topPyPiPackages := [], topPyPiDownloads := [], ignoredPackages := [("evil-pkg", "trusted")]
    recentlyIgnored := [], cache := [] }

/-- C6, evaluated at the failing input: `evil-pkg` IS present in the
Ignore Registry (with an empty note, as a bare line in the ignore file
produces), yet the engine's private `isIgnoredPackage` treats the empty
note as falsy and scores the package normally (here: hallucination path,
`level = low`), instead of returning the claimed `ignored` result.  With
a non-empty note the claimed behaviour does hold, which shows the
truthiness test — not the claim — is the slip. -/
theorem C6_empty_note_ignored_bug :
    cx6State.ignoredPackages.lookup "evil-pkg" = some ""
    ∧ (pyCalculateScore cxEnv cx6State "evil-pkg" cxInfoMissing).1.level = .low
    ∧ (pyCalculateScore cxEnv cx6State "evil-pkg" cxInfoMissing).1.level ≠ .ignored
    ∧ (pyCalculateScore cxEnv cx6NoteState "evil-pkg" cxInfoMissing).1.level = .ignored := by
  have h1 : isIgnoredPackagePriv cx6State.ignoredPackages "evil-pkg" = none := by decide
  have h2 : getCachedScore cx6State.cache "python" "evil-pkg" cxEnv.ttl cxEnv.now = none := rfl
  have h3 : cx6State.recentlyIgnored.contains "evil-pkg" = false := by decide
  have h4 : PYTHON_STDLIB.contains "evil-pkg" = false := by decide
  have hIg : isIgnoredPackagePriv cx6NoteState.ignoredPackages "evil-pkg" = some "trusted" := by
    decide
  have hlow : (pyCalculateScore cxEnv cx6State "evil-pkg" cxInfoMissing).1.level = .low := by
    rw [pyCalculateScore_route _ _ _ _ h1 h2 h3]
    simp only [pyScoreMain, h4, Bool.false_eq_true, if_false]
    split
    · rfl
    · next h => exact absurd (Or.inl rfl) h
  refine ⟨by decide, hlow, by rw [hlow]; simp, ?_⟩
  simp only [pyCalculateScore, hIg]
  simp [pyIgnoredScore]

/-! Claim C7. -/

/-- A previously cached TrustScore for package `p`. -/
def cx7Score : TrustScore :=
  { packageName := "p", score := some 77, level := .medium
    evidence :=
      { exists_ := true, downloads := 0, releaseAge := 0, multipleMaintainers := true
        vulnerabilities := 0, maintainerCount := 0, registryUrl := "", githubRepo := none }
    scoreReasons := [], topDownloads := 0, releaseDate := "", riskFactors := []
    githubRepo := none }

/-- State with a 1-second-old cache entry for `p` and nothing ignored. -/
def cx7State : PyState :=
  { topPyPiPackages := [], topPyPiDownloads := [], ignoredPackages := []
    recentlyIgnored := [], cache := [("python:p", cx7Score, 1000000000000 - 1000)] }

/-- The same fresh cache entry, but `p` is now in the Ignore Registry. -/
def cx7IgnState : PyState :=
  { topPyPiPackages := [], topPyPiDownloads := [], ignoredPackages := [("p", "why")]
    recentlyIgnored := [], cache := [("python:p", cx7Score, 1000000000000 - 1000)] }

/-- C7 (amended): when the package is not in the Ignore Registry (per the
engine's check), a non-expired cache entry (age strictly below
`ttl * 1000` ms) for `("python", name)` is returned verbatim with the
state untouched — no recomputation — unless the package was just removed
from the ignore list in this session.  As amended, a package currently in
the Ignore Registry is answered by the ignore branch instead of the
cache. -/
theorem C7_cache_hit_verbatim (env : Env) (st : PyState) (name : String) (info : RegistryInfo)
    (c : TrustScore)
    (h1 : isIgnoredPackagePriv st.ignoredPackages name = none)
    (h2 : getCachedScore st.cache "python" name env.ttl env.now = some c)
    (h3 : st.recentlyIgnored.contains name = false) :
    pyCalculateScore env st name info = (c, st) := by
  simp only [pyCalculateScore, h1, h2, h3]

/-- C7 witness: the 1-second-old entry for `p` is served verbatim. -/
theorem C7_cache_hit_verbatim_witness :
    pyCalculateScore cxEnv cx7State "p" cxInfoMissing = (cx7Score, cx7State) :=
  C7_cache_hit_verbatim cxEnv cx7State "p" cxInfoMissing cx7Score (by decide)
    (by
      have hk : ("python" ++ ":" ++ "p" == "python:p") = true := by decide
      simp only [getCachedScore, cx7State, cxEnv, List.lookup, hk]
      norm_num)
    (by decide)

/-- C7 counterexample: with a fresh cache entry present and the package
not recently unignored, scoring does NOT return the cached TrustScore
when the package currently sits in the Ignore Registry — the ignore
branch answers first. -/
theorem C7_ignored_beats_cache_counterexample :
    getCachedScore cx7IgnState.cache "python" "p" cxEnv.ttl cxEnv.now = some cx7Score
    ∧ cx7IgnState.recentlyIgnored.contains "p" = false
    ∧ (pyCalculateScore cxEnv cx7IgnState "p" cxInfoMissing).1 ≠ cx7Score := by
  have hIg : isIgnoredPackagePriv cx7IgnState.ignoredPackages "p" = some "why" := by decide
  have hlvl : (pyCalculateScore cxEnv cx7IgnState "p" cxInfoMissing).1.level = .ignored := by
    simp only [pyCalculateScore, hIg]
    simp [pyIgnoredScore]
  refine ⟨?_, by decide, ?_⟩
  · have hk : ("python" ++ ":" ++ "p" == "python:p") = true := by decide
    simp only [getCachedScore, cx7IgnState, List.lookup, cxEnv, hk]
    norm_num
  · intro heq
    rw [heq] at hlvl
    simp [cx7Score] at hlvl

/-! ### C8: the interactive security prompt -/

theorem lookup_cons_isSome (k n v : String) (reg : List (String × String))
    (h : (reg.lookup k).isSome) : (((n, v) :: reg).lookup k).isSome := by
  simp only [List.lookup]
  split
  · rfl
  · exact h

theorem ignorePackagesAll_preserves (noteFor : String → String)
    (l : List (String × Ecosystem)) (reg : List (String × String)) (k : String)
    (h : (reg.lookup k).isSome) :
    ((ignorePackagesAll noteFor l reg).lookup k).isSome := by
  induction l generalizing reg with
  | nil => exact h
  | cons q rest ih =>
      show ((ignorePackagesAll noteFor rest (ignorePackageCommand noteFor q.1 reg)).lookup k).isSome
      exact ih _ (lookup_cons_isSome k q.1 (noteFor q.1) reg h)

theorem ignorePackagesAll_mem (noteFor : String → String)
    (packages : List (String × Ecosystem)) :
    ∀ (reg : List (String × String)) (p : String × Ecosystem), p ∈ packages →
    ((ignorePackagesAll noteFor packages reg).lookup p.1).isSome := by
  induction packages with
  | nil => intro reg p hp; cases hp
  | cons q rest ih =>
      intro reg p hp
      show ((ignorePackagesAll noteFor rest (ignorePackageCommand noteFor q.1 reg)).lookup p.1).isSome
      rcases List.mem_cons.mp hp with rfl | hmem
      · exact ignorePackagesAll_preserves noteFor rest _ p.1
          (by simp [ignorePackageCommand, List.lookup])
      · exact ih _ p hmem

/-- C8: while the security prompt is pending, answering `n` or bare
Enter resolves the decision to `false` (installation refused); answering
`i` resolves it to `true` and every flagged package of the pending check
is present in the Ignore Registry afterwards. -/
theorem C8_interactive_decisions (noteFor : String → String) (st : TerminalState)
    (chk : PendingCheck) (h : st.pendingSecurityCheck = some chk) :
    (handleSecurityPromptInput noteFor "n" st).resolved = some false
    ∧ (handleSecurityPromptInput noteFor "\r" st).resolved = some false
    ∧ (handleSecurityPromptInput noteFor "i" st).resolved = some true
    ∧ ∀ p ∈ chk.packages,
        (((handleSecurityPromptInput noteFor "i" st).ignoredPackages).lookup p.1).isSome := by
  have hn1 : ¬(jsToLowerCase "n" = "y") := by decide
  have hn2 : (jsToLowerCase "n" = "n" ∨ jsToLowerCase "n" = "\r") := by decide
  have hr1 : ¬(jsToLowerCase "\r" = "y") := by decide
  have hr2 : (jsToLowerCase "\r" = "n" ∨ jsToLowerCase "\r" = "\r") := by decide
  have hi1 : ¬(jsToLowerCase "i" = "y") := by decide
  have hi2 : ¬(jsToLowerCase "i" = "n" ∨ jsToLowerCase "i" = "\r") := by decide
  have hi3 : ¬(jsToLowerCase "i" = "d") := by decide
  have hi4 : jsToLowerCase "i" = "i" := by decide
  refine ⟨?_, ?_, ?_, ?_⟩
  · simp only [handleSecurityPromptInput, h]
    rw [if_neg hn1, if_pos hn2]
  · simp only [handleSecurityPromptInput, h]
    rw [if_neg hr1, if_pos hr2]
  · simp only [handleSecurityPromptInput, h]
    rw [if_neg hi1, if_neg hi2, if_neg hi3, if_pos hi4]
  · intro p hp
    simp only [handleSecurityPromptInput, h]
    rw [if_neg hi1, if_neg hi2, if_neg hi3, if_pos hi4]
    exact ignorePackagesAll_mem noteFor chk.packages st.ignoredPackages p hp

def cx8Chk : PendingCheck :=
  { command := "pip install risky", packages := [("risky", .python)] }

def cx8St : TerminalState :=
  { pendingSecurityCheck := some cx8Chk, isInSecurityPrompt := true
    ignoredPackages := [], resolved := none }

/-- Witness for C8 at a concrete prompt state flagging `risky`. -/
theorem C8_interactive_decisions_witness :
    cx8St.pendingSecurityCheck = some cx8Chk
    ∧ (handleSecurityPromptInput (fun _ => "") "n" cx8St).resolved = some false
    ∧ (handleSecurityPromptInput (fun _ => "") "\r" cx8St).resolved = some false
    ∧ (handleSecurityPromptInput (fun _ => "") "i" cx8St).resolved = some true
    ∧ (((handleSecurityPromptInput (fun _ => "") "i" cx8St).ignoredPackages).lookup
        "risky").isSome := by
  have h := C8_interactive_decisions (fun _ => "") cx8St cx8Chk rfl
  exact ⟨rfl, h.1, h.2.1, h.2.2.1, h.2.2.2 ("risky", .python) (by simp [cx8Chk])⟩

/-! ### C9: the install-command extractor -/

theorem extractFromPattern_none (cmd : String) (acc : List (String × Ecosystem))
    (pat : List (List Char) × Ecosystem) (h : searchPattern pat.1 cmd.data = none) :
    extractFromPattern cmd acc pat = acc := by
  simp only [extractFromPattern, h]

theorem extract_foldl_id (cmd : String) (pats : List (List (List Char) × Ecosystem))
    (h : ∀ pat ∈ pats, searchPattern pat.1 cmd.data = none) :
    ∀ acc, pats.foldl (extractFromPattern cmd) acc = acc := by
  induction pats with
  | nil => intro acc; rfl
  | cons q rest ih =>
      intro acc
      rw [List.foldl_cons, extractFromPattern_none cmd acc q (h q (List.mem_cons_self q rest))]
      exact ih (fun p hp => h p (List.mem_cons_of_mem q hp)) acc

/-- C9: the extractor maps `pip install requests==2.31.0 numpy` to exactly
the two python references `requests` and `numpy` (pins stripped); it maps
`git push origin main` to `[]`; and any command in which no install
pattern matches anywhere yields `[]`. -/
theorem C9_extractor_examples :
    extractPackageInfo "pip install requests==2.31.0 numpy"
        = [("requests", .python), ("numpy", .python)]
    ∧ extractPackageInfo "git push origin main" = []
    ∧ ∀ cmd : String,
        (∀ pat ∈ installPatterns, searchPattern pat.1 cmd.data = none) →
        extractPackageInfo cmd = [] := by
  refine ⟨by decide, by decide, ?_⟩
  intro cmd h
  exact extract_foldl_id cmd installPatterns h []

/-- Witness for C9's universal part on a command with no install verb. -/
theorem C9_extractor_examples_witness : extractPackageInfo "ls -la" = [] :=
  C9_extractor_examples.2.2 "ls -la" (by decide)

/-! ### C10: scoped npm packages are silently dropped -/

theorem takeBefore_head (sep : List Char) (l : List Char) :
    takeBefore sep l = [] ∨ (takeBefore sep l).head? = l.head? := by
  cases l with
  | nil => exact Or.inl rfl
  | cons c t =>
      simp only [takeBefore]
      split
      · exact Or.inl rfl
      · exact Or.inr rfl

theorem takeBefore_at (l : List Char) (h : l.head? = some '@') :
    takeBefore ['@'] l = [] := by
  cases l with
  | nil => cases h
  | cons c t =>
      obtain rfl : c = '@' := by simpa using h
      have hs : startsWithL ['@'] ('@' :: t) = true := rfl
      simp [takeBefore, hs]

theorem takeBefore_nil_or_at (sep : List Char) (l : List Char)
    (h : l = [] ∨ l.head? = some '@') :
    takeBefore sep l = [] ∨ (takeBefore sep l).head? = some '@' := by
  rcases h with rfl | h
  · exact Or.inl rfl
  · rcases takeBefore_head sep l with h1 | h1
    · exact Or.inl h1
    · exact Or.inr (h1.trans h)

/-- C10: every spec token beginning with `@` cleans to the empty name
(splitting on `@` keeps the text before the first `@`), and the
extractor discards empties: `npm install @types/node` yields no
packages, so scoped npm packages are never scored or gated. -/
theorem C10_scoped_npm_discarded :
    (∀ spec : String, spec.data.head? = some '@' → cleanPackageName spec = "")
    ∧ extractPackageInfo "npm install @types/node" = [] := by
  refine ⟨?_, by decide⟩
  intro spec h
  have h1 := takeBefore_nil_or_at ['=', '='] spec.data (Or.inr h)
  have h2 := takeBefore_nil_or_at ['>', '='] _ h1
  have h3 := takeBefore_nil_or_at ['<', '='] _ h2
  have h4 := takeBefore_nil_or_at ['['] _ h3
  unfold cleanPackageName
  rcases h4 with h4 | h4
  · simp only [h4]
    rfl
  · simp only [takeBefore_at _ h4]
    rfl

/-- Witness for C10: the scoped spec `@types/node` cleans to `""`. -/
theorem C10_scoped_npm_discarded_witness :
    cleanPackageName "@types/node" = "" :=
  C10_scoped_npm_discarded.1 "@types/node" (by decide)

end PkgGuard
